import Mathlib

/-!
Shallow embedding of `src/_requests.py`, a small client for the
Maintenance Connection v8 REST web API.  JSON values are modelled by an
inductive type, Python dictionaries by ordered association lists of
string keys, and the Python exceptions that can escape the embedded
functions by an explicit error type carried in `Except`.
-/

/-- JSON values, as produced by parsing a response body.  Numbers are
restricted to integers, which covers every value the development needs. -/
inductive Json where
  | null
  | bool (b : Bool)
  | num (n : Int)
  | str (s : String)
  | arr (elems : List Json)
  | obj (fields : List (String × Json))

/-- Python exceptions that can escape the embedded functions. -/
inductive PyErr where
  | jsonDecodeError
  | keyError
  | typeError
  | attributeError

/-- First-match lookup in an association list, modelling Python
dictionary lookup (JSON objects parse to dictionaries, whose keys are
unique, so first-match agrees with dictionary semantics). -/
def pyLookup : List (String × Json) → String → Option Json
  | [], _ => none
  | (k, v) :: rest, key => if k = key then some v else pyLookup rest key

/-- Python `d.get(key, None)`: the stored value, or `None` for a missing key. -/
def pyGet (fields : List (String × Json)) (key : String) : Json :=
  match pyLookup fields key with
  | some v => v
  | none => Json.null

/-- One `try/except AttributeError` block of `_get` (lines 113-140 of
`_requests.py`): when the raw value is a dictionary, the block builds
`{key: raw.get(key, None)}`; on any other value the nested `.get` raises
`AttributeError` and the except branch stores the raw value itself
(`_resp[field] = result.get(field, None)`). -/
def normRef (raw : Json) (key : String) : Json :=
  match raw with
  | Json.obj inner => Json.obj [(key, pyGet inner key)]
  | v => v

/-- The body of the normalisation loop of `_get` (lines 104-142 of
`_requests.py`): a raw result that is a dictionary is reshaped into the
fixed twelve-field record, in the insertion order of the source;
`result.get` on a non-dictionary raises `AttributeError`. -/
def normalizeRecord (result : Json) : Except PyErr Json :=
  match result with
  | Json.obj fields =>
    Except.ok (Json.obj
      [("PK", pyGet fields "PK"),
       ("ID", pyGet fields "ID"),
       ("Name", pyGet fields "Name"),
       ("IsLocation", pyGet fields "IsLocation"),
       ("Vicinity", pyGet fields "Vicinity"),
       ("Icon", pyGet fields "Icon"),
       ("UDFChar9", pyGet fields "UDFChar9"),
       ("ParentRef", normRef (pyGet fields "ParentRef") "ID"),
       ("ClassificationRef", normRef (pyGet fields "ClassificationRef") "ID"),
       ("RepairCenterRef", normRef (pyGet fields "RepairCenterRef") "ID"),
       ("ShopRef", normRef (pyGet fields "ShopRef") "ID"),
       ("TypeDetails", normRef (pyGet fields "TypeDetails") "Value")])
  | _ => Except.error PyErr.attributeError

/-- The normalisation loop over the `Results` list: the first exception
raised by an iteration propagates, otherwise the list of reshaped
records is collected. -/
def normalizeAll : List Json → Except PyErr (List Json)
  | [] => Except.ok []
  | r :: rs =>
    match normalizeRecord r with
    | Except.error e => Except.error e
    | Except.ok v =>
      match normalizeAll rs with
      | Except.error e => Except.error e
      | Except.ok vs => Except.ok (v :: vs)

/-- Whether an `Except` computation finished without a propagating error. -/
def isOkE {α : Type} : Except PyErr α → Bool
  | Except.ok _ => true
  | Except.error _ => false

/-- Whether a JSON value is an object (a Python dictionary). -/
def isObjB : Json → Bool
  | Json.obj _ => true
  | _ => false

/-- The field list of a JSON object, and `[]` on any other value. -/
def objFieldsD : Json → List (String × Json)
  | Json.obj fields => fields
  | _ => []

/-- Python `str()` rendering of an optional string argument inside an
f-string: a missing argument renders as the literal text `None`. -/
def pyStr : Option String → String
  | none => "None"
  | some s => s

/-- Python `str()` rendering of an optional integer argument inside an
f-string: a missing argument renders as the literal text `None`. -/
def pyStrInt : Option Int → String
  | none => "None"
  | some n => toString n

/-- Python truthiness of an optional string, as tested by
`if _filter:`: `None` and the empty string are falsy. -/
def pyTruthy : Option String → Bool
  | none => false
  | some s => s != ""

/-- The query string built by `_get` (lines 84-89 of `_requests.py`). -/
def buildQuery (_filter operator identifier : Option String)
    (top skip : Option Int) : String :=
  if pyTruthy _filter then
    "?$filter=" ++ pyStr _filter ++ "%20" ++ pyStr operator ++ "%20\"" ++
      pyStr identifier ++ "\"&$top=" ++ pyStrInt top ++ "&$skip=" ++ pyStrInt skip
  else
    "?$top=" ++ pyStrInt top ++ "&$skip=" ++ pyStrInt skip

/-- HTTP method of an issued request. -/
inductive Method where
  | get
  | post
  | put

/-- The request a function hands to the `requests` library: method, full
URL, and the JSON body (`none` for GET, which sends no body). -/
structure SentRequest where
  method : Method
  url : String
  body : Option Json

/-- The part of a `requests` response the source reads: the status code
and the parsed JSON body (`none` when the body is not valid JSON, in
which case `r.json()` raises). -/
structure HttpResponse where
  status_code : Nat
  jsonBody : Option Json

/-- The `ok` property of a `requests` response: `False` exactly for
status codes in the interval [400, 600). -/
def respOk (status_code : Nat) : Bool :=
  decide (status_code < 400) || decide (600 ≤ status_code)

/-- Python `module[:-1]`: the string without its last character. -/
def pyDropLast (s : String) : String :=
  String.mk s.data.dropLast

/-- The log line printed by `_get` (lines 94-97 of `_requests.py`). -/
def fetchLog (status_code : Nat) : String :=
  if respOk status_code then
    "Connection Successful!\nStatus Code: " ++ toString status_code ++ "\n"
  else
    "Connection NOT Successful\nStatus Code: " ++ toString status_code ++ "\n"

/-- Python `r.json()` (lines 98-101): the parsed body, or a propagating
decode error when the body is not valid JSON. -/
def parseBody : Option Json → Except PyErr Json
  | some j => Except.ok j
  | none => Except.error PyErr.jsonDecodeError

/-- The value `_get` computes from the response body (lines 98-144 of
`_requests.py`): `r.json()["Results"]` raises a decode error on an
unparseable body, a type error when the parsed body is not a dictionary,
and a key error when `Results` is missing; in raw mode the `Results`
value is returned as is, otherwise the normalisation loop runs over it.
Python iteration of a non-list `Results` value is outside this model and
is mapped to a type error; every theorem below that reaches the
normalisation branch assumes `Results` is an array. -/
def fetchResult (body : Option Json) (raw : Bool) : Except PyErr Json :=
  match body with
  | none => Except.error PyErr.jsonDecodeError
  | some (Json.obj fields) =>
    match pyLookup fields "Results" with
    | none => Except.error PyErr.keyError
    | some results =>
      if raw then Except.ok results
      else
        match results with
        | Json.arr rs =>
          match normalizeAll rs with
          | Except.ok vs => Except.ok (Json.arr vs)
          | Except.error e => Except.error e
        | _ => Except.error PyErr.typeError
  | some _ => Except.error PyErr.typeError

/-- The `_get` function of `_requests.py`: the issued request (URL built
from the server host, the module and the query string), the printed log
line, and the returned collection or propagating error. -/
def _get (server module : String) (_filter operator identifier : Option String)
    (top skip : Option Int) (r : HttpResponse) (raw : Bool) :
    SentRequest × String × Except PyErr Json :=
  (SentRequest.mk Method.get
     ("http://" ++ server ++ "/v8/" ++ module ++
       buildQuery _filter operator identifier top skip)
     none,
   fetchLog r.status_code,
   fetchResult r.jsonBody raw)

/-- The `_post` function of `_requests.py`: POST the data collection as
the JSON body to `http://<server>/v8/<module>`, print a log line, and
return the parsed response body unchanged. -/
def _post (server module : String) (data : Json) (r : HttpResponse) :
    SentRequest × String × Except PyErr Json :=
  (SentRequest.mk Method.post ("http://" ++ server ++ "/v8/" ++ module) (some data),
   (if respOk r.status_code then
      "Connection Successful!\nStatus Code: " ++ toString r.status_code ++
        "\nThe " ++ pyDropLast module ++ " has been added\n"
    else
      "Connection NOT Successful\nStatus Code: " ++ toString r.status_code ++ "\n"),
   parseBody r.jsonBody)

/-- The `_put` function of `_requests.py`: PUT the data collection as
the JSON body to `http://<server>/v8/<module>`, print a log line, and
return the parsed response body unchanged. -/
def _put (server module : String) (data : Json) (r : HttpResponse) :
    SentRequest × String × Except PyErr Json :=
  (SentRequest.mk Method.put ("http://" ++ server ++ "/v8/" ++ module) (some data),
   (if respOk r.status_code then
      "Connection Successful!\nStatus Code: " ++ toString r.status_code ++
        "\nThe " ++ pyDropLast module ++ " has been updated\n"
    else
      "Connection NOT Successful\nStatus Code: " ++ toString r.status_code ++ "\n"),
   parseBody r.jsonBody)

/-- The five nested reference fields and the single key each one is
expected to carry after normalisation. -/
def refFields : List (String × String) :=
  [("ParentRef", "ID"), ("ClassificationRef", "ID"), ("RepairCenterRef", "ID"),
   ("ShopRef", "ID"), ("TypeDetails", "Value")]

/-- Shape of a normalised nested field as the specification describes
it: `null`, or an object with exactly the one expected key. -/
def refShape (v : Json) (key : String) : Bool :=
  match v with
  | Json.null => true
  | Json.obj [(k, _)] => k == key
  | _ => false

/-- A record in the normalised output shape described by the
specification: exactly the twelve data-model fields, with each reference
field either null or an object with the single key `ID`, and
`TypeDetails` either null or an object with the single key `Value`. -/
def isNormalizedRecord (j : Json) : Prop :=
  ∃ pk i nm loc vic icon udf pr cr rc sh td,
    refShape pr "ID" = true ∧ refShape cr "ID" = true ∧ refShape rc "ID" = true ∧
    refShape sh "ID" = true ∧ refShape td "Value" = true ∧
    j = Json.obj
      [("PK", pk), ("ID", i), ("Name", nm), ("IsLocation", loc), ("Vicinity", vic),
       ("Icon", icon), ("UDFChar9", udf), ("ParentRef", pr), ("ClassificationRef", cr),
       ("RepairCenterRef", rc), ("ShopRef", sh), ("TypeDetails", td)]

/-- The value stored at `name` in the record emitted for the raw object
with the given fields (`Json.null` in the unreachable error case). -/
def normField (fields : List (String × Json)) (name : String) : Json :=
  match normalizeRecord (Json.obj fields) with
  | Except.ok (Json.obj out) => pyGet out name
  | _ => Json.null

/-- Whether a parsed body is a dictionary carrying a `Results` key. -/
def bodyHasResults (body : Option Json) : Bool :=
  match body with
  | some (Json.obj fields) => (pyLookup fields "Results").isSome
  | _ => false

/-- Whether a parsed body carries a `Results` array all of whose
elements are objects. -/
def resultsAllObjects (body : Option Json) : Bool :=
  match body with
  | some (Json.obj fields) =>
    match pyLookup fields "Results" with
    | some (Json.arr rs) => rs.all isObjB
    | _ => false
  | _ => false

/-- Domain restriction of the model: when a parsed body carries a
`Results` key, its value is an array. -/
def resultsWellFormed (body : Option Json) : Bool :=
  match body with
  | some (Json.obj fields) =>
    match pyLookup fields "Results" with
    | some (Json.arr _) => true
    | some _ => false
    | none => true
  | _ => true

/-- Sample record in the normalised output shape, used as a concrete
instance for the idempotence theorem. -/
def normalizedSample : Json :=
  Json.obj
    [("PK", Json.num 1), ("ID", Json.str "X"), ("Name", Json.null),
     ("IsLocation", Json.null), ("Vicinity", Json.null), ("Icon", Json.null),
     ("UDFChar9", Json.null), ("ParentRef", Json.obj [("ID", Json.str "Y")]),
     ("ClassificationRef", Json.null), ("RepairCenterRef", Json.null),
     ("ShopRef", Json.null), ("TypeDetails", Json.null)]

theorem normalizeRecord_isOk (r : Json) : isOkE (normalizeRecord r) = isObjB r := by
  cases r <;> rfl

theorem normalizeAll_isOk (rs : List Json) :
    isOkE (normalizeAll rs) = rs.all isObjB := by
  induction rs with
  | nil => rfl
  | cons r rs ih =>
    simp only [normalizeAll, List.all_cons]
    cases hr : normalizeRecord r with
    | error e =>
      have hobj : isObjB r = false := by
        rw [← normalizeRecord_isOk, hr]; rfl
      simp [hobj, isOkE]
    | ok v =>
      have hobj : isObjB r = true := by
        rw [← normalizeRecord_isOk, hr]; rfl
      cases ha : normalizeAll rs with
      | error e =>
        rw [ha] at ih
        simp [hobj, ← ih, isOkE]
      | ok vs =>
        rw [ha] at ih
        simp [hobj, ← ih, isOkE]

theorem normRef_of_shape (v : Json) (key : String) (h : refShape v key = true) :
    normRef v key = v := by
  cases v with
  | null => rfl
  | bool b => exact Bool.noConfusion h
  | num n => exact Bool.noConfusion h
  | str s => exact Bool.noConfusion h
  | arr xs => exact Bool.noConfusion h
  | obj fields =>
    rcases fields with _ | ⟨⟨k, x⟩, tl⟩
    · exact Bool.noConfusion h
    · rcases tl with _ | ⟨hd, tl⟩
      · have hk : k = key := eq_of_beq h
        subst hk
        simp [normRef, pyGet, pyLookup]
      · exact Bool.noConfusion h

theorem normRef_of_not_obj (v : Json) (key : String) (h : isObjB v = false) :
    normRef v key = v := by
  cases v with
  | obj fields => exact Bool.noConfusion h
  | null => rfl
  | bool b => rfl
  | num n => rfl
  | str s => rfl
  | arr xs => rfl

theorem normField_eq_normRef (fields : List (String × Json)) (name key : String)
    (h : (name, key) ∈ refFields) :
    normField fields name = normRef (pyGet fields name) key := by
  simp only [refFields, List.mem_cons, List.mem_singleton, Prod.mk.injEq,
    List.not_mem_nil, or_false] at h
  rcases h with ⟨rfl, rfl⟩ | ⟨rfl, rfl⟩ | ⟨rfl, rfl⟩ | ⟨rfl, rfl⟩ | ⟨rfl, rfl⟩ <;> rfl

/-- C1 counterexample: the raw result `{"ParentRef": "foo"}` has a
present but non-object `ParentRef`; the emitted record keeps the raw
string `"foo"`, which is neither null nor an object with the single key
`ID`, so a present non-object value is not treated as null. -/
theorem c1_counterexample :
    normField [("ParentRef", Json.str "foo")] "ParentRef" = Json.str "foo" ∧
    refShape (normField [("ParentRef", Json.str "foo")] "ParentRef") "ID" = false :=
  ⟨rfl, rfl⟩

/-- C1 (amended): for every raw result object processed in normalized
mode, normalization never fails, and each of the five nested fields
ParentRef, ClassificationRef, RepairCenterRef, ShopRef, TypeDetails of
the emitted record is: null when the raw value is absent or null; an
object containing exactly the one expected key (ID, or Value for
TypeDetails) when the raw value is an object; and otherwise the raw
non-object value itself, passed through unchanged. -/
theorem c1_amended (fields : List (String × Json)) (name key : String)
    (h : (name, key) ∈ refFields) :
    isOkE (normalizeRecord (Json.obj fields)) = true ∧
    (pyGet fields name = Json.null → normField fields name = Json.null) ∧
    (isObjB (pyGet fields name) = true →
      normField fields name =
        Json.obj [(key, pyGet (objFieldsD (pyGet fields name)) key)]) ∧
    (isObjB (pyGet fields name) = false →
      normField fields name = pyGet fields name) := by
  have hnf := normField_eq_normRef fields name key h
  refine ⟨rfl, ?_, ?_, ?_⟩
  · intro h0
    rw [hnf, h0]
    rfl
  · intro h0
    rw [hnf]
    cases hv : pyGet fields name with
    | obj inner => rfl
    | null => rw [hv] at h0; exact Bool.noConfusion h0
    | bool b => rw [hv] at h0; exact Bool.noConfusion h0
    | num n => rw [hv] at h0; exact Bool.noConfusion h0
    | str s => rw [hv] at h0; exact Bool.noConfusion h0
    | arr xs => rw [hv] at h0; exact Bool.noConfusion h0
  · intro h0
    rw [hnf]
    exact normRef_of_not_obj _ _ h0

/-- C1 witness: instantiation at the raw object
`{"ParentRef": {"ID": "Y"}}` and the nested field ParentRef. -/
theorem c1_amended_witness :
    ("ParentRef", "ID") ∈ refFields ∧
    normField [("ParentRef", Json.obj [("ID", Json.str "Y")])] "ParentRef" =
      Json.obj
        [("ID",
          pyGet
            (objFieldsD
              (pyGet [("ParentRef", Json.obj [("ID", Json.str "Y")])] "ParentRef"))
            "ID")] :=
  ⟨by decide,
   (c1_amended [("ParentRef", Json.obj [("ID", Json.str "Y")])] "ParentRef" "ID"
      (by decide)).2.2.1 rfl⟩

/-- C2 counterexample: with the supplied (but empty) filter `""`,
operator `eq`, identifier `X`, top 1, skip 2, the code takes the
no-filter branch and builds `?$top=1&$skip=2`, not the claimed
filter template. -/
theorem c2_counterexample :
    buildQuery (some "") (some "eq") (some "X") (some 1) (some 2) =
      "?$top=1&$skip=2" ∧
    "?$top=1&$skip=2" ≠
      "?$filter=" ++ "" ++ "%20" ++ pyStr (some "eq") ++ "%20\"" ++
        pyStr (some "X") ++ "\"&$top=" ++ pyStrInt (some 1) ++ "&$skip=" ++
        pyStrInt (some 2) :=
  ⟨rfl, by decide⟩

/-- C2 (amended): for every combination of arguments, the constructed
query string equals the exact template
`?$filter=<field>%20<op>%20"<id>"&$top=<top>&$skip=<skip>` when a
non-empty filter is supplied, and the exact template
`?$top=<top>&$skip=<skip>` when the filter is absent (or supplied
empty, by the truthiness test), and the GET URL is
`http://<server>/v8/<module>` followed by that query string. -/
theorem c2_amended (server module : String) (f : String)
    (operator identifier : Option String) (top skip : Option Int)
    (r : HttpResponse) (raw : Bool) (hf : f ≠ "") :
    buildQuery (some f) operator identifier top skip =
      "?$filter=" ++ f ++ "%20" ++ pyStr operator ++ "%20\"" ++
        pyStr identifier ++ "\"&$top=" ++ pyStrInt top ++ "&$skip=" ++
        pyStrInt skip ∧
    buildQuery none operator identifier top skip =
      "?$top=" ++ pyStrInt top ++ "&$skip=" ++ pyStrInt skip ∧
    ( _get server module (some f) operator identifier top skip r raw).1.url =
      "http://" ++ server ++ "/v8/" ++ module ++
        buildQuery (some f) operator identifier top skip := by
  have ht : pyTruthy (some f) = true := by
    simp only [pyTruthy, bne_iff_ne, ne_eq]
    exact hf
  refine ⟨?_, rfl, rfl⟩
  unfold buildQuery
  rw [ht]
  rfl

/-- C2 witness: instantiation at Scenario A of the specification. -/
theorem c2_amended_witness :
    ("ID" : String) ≠ "" ∧
    buildQuery (some "ID") (some "eq") (some "SHI-V-1405") (some 50) (some 0) =
      "?$filter=" ++ "ID" ++ "%20" ++ pyStr (some "eq") ++ "%20\"" ++
        pyStr (some "SHI-V-1405") ++ "\"&$top=" ++ pyStrInt (some 50) ++
        "&$skip=" ++ pyStrInt (some 0) :=
  ⟨by decide,
   (c2_amended "server" "assets" "ID" (some "eq") (some "SHI-V-1405") (some 50)
      (some 0) (HttpResponse.mk 200 none) false (by decide)).1⟩

/-- C3: the raw result `{"PK":1,"ID":"X","ParentRef":{"ID":"Y","Name":"ignored"}}`
normalizes to exactly the twelve-field record with nulls for the absent
fields, ParentRef flattened to `{"ID":"Y"}`, and the extra nested key
`Name` dropped. -/
theorem c3_normalize_scenarioB :
    normalizeRecord
      (Json.obj
        [("PK", Json.num 1), ("ID", Json.str "X"),
         ("ParentRef", Json.obj [("ID", Json.str "Y"), ("Name", Json.str "ignored")])]) =
    Except.ok
      (Json.obj
        [("PK", Json.num 1), ("ID", Json.str "X"), ("Name", Json.null),
         ("IsLocation", Json.null), ("Vicinity", Json.null), ("Icon", Json.null),
         ("UDFChar9", Json.null), ("ParentRef", Json.obj [("ID", Json.str "Y")]),
         ("ClassificationRef", Json.null), ("RepairCenterRef", Json.null),
         ("ShopRef", Json.null), ("TypeDetails", Json.null)]) :=
  rfl

/-- C4: normalization is idempotent: a record already in the normalized
output shape (exactly the twelve data-model fields, each reference field
null or an object with the single key ID, TypeDetails null or an object
with the single key Value) is reproduced identically by the per-record
normalization. -/
theorem c4_normalize_idempotent (j : Json) (h : isNormalizedRecord j) :
    normalizeRecord j = Except.ok j := by
  obtain ⟨pk, i, nm, loc, vic, icon, udf, pr, cr, rc, sh, td,
    h1, h2, h3, h4, h5, rfl⟩ := h
  have e : normalizeRecord (Json.obj
      [("PK", pk), ("ID", i), ("Name", nm), ("IsLocation", loc), ("Vicinity", vic),
       ("Icon", icon), ("UDFChar9", udf), ("ParentRef", pr), ("ClassificationRef", cr),
       ("RepairCenterRef", rc), ("ShopRef", sh), ("TypeDetails", td)]) =
      Except.ok (Json.obj
      [("PK", pk), ("ID", i), ("Name", nm), ("IsLocation", loc), ("Vicinity", vic),
       ("Icon", icon), ("UDFChar9", udf), ("ParentRef", normRef pr "ID"),
       ("ClassificationRef", normRef cr "ID"), ("RepairCenterRef", normRef rc "ID"),
       ("ShopRef", normRef sh "ID"), ("TypeDetails", normRef td "Value")]) := rfl
  rw [e, normRef_of_shape pr "ID" h1, normRef_of_shape cr "ID" h2,
    normRef_of_shape rc "ID" h3, normRef_of_shape sh "ID" h4,
    normRef_of_shape td "Value" h5]

/-- C4 witness: instantiation at a concrete normalized record. -/
theorem c4_normalize_idempotent_witness :
    isNormalizedRecord normalizedSample ∧
    normalizeRecord normalizedSample = Except.ok normalizedSample :=
  ⟨⟨Json.num 1, Json.str "X", Json.null, Json.null, Json.null, Json.null,
     Json.null, Json.obj [("ID", Json.str "Y")], Json.null, Json.null, Json.null,
     Json.null, rfl, rfl, rfl, rfl, rfl, rfl⟩,
   c4_normalize_idempotent normalizedSample
     ⟨Json.num 1, Json.str "X", Json.null, Json.null, Json.null, Json.null,
      Json.null, Json.obj [("ID", Json.str "Y")], Json.null, Json.null, Json.null,
      Json.null, rfl, rfl, rfl, rfl, rfl, rfl⟩⟩

theorem fetchResult_obj (fields : List (String × Json)) (raw : Bool) :
    fetchResult (some (Json.obj fields)) raw =
      match pyLookup fields "Results" with
      | none => Except.error PyErr.keyError
      | some results =>
        if raw then Except.ok results
        else
          match results with
          | Json.arr rs =>
            match normalizeAll rs with
            | Except.ok vs => Except.ok (Json.arr vs)
            | Except.error e => Except.error e
          | _ => Except.error PyErr.typeError := rfl

theorem bodyHasResults_obj (fields : List (String × Json)) :
    bodyHasResults (some (Json.obj fields)) =
      (pyLookup fields "Results").isSome := rfl

theorem resultsAllObjects_obj (fields : List (String × Json)) :
    resultsAllObjects (some (Json.obj fields)) =
      match pyLookup fields "Results" with
      | some (Json.arr rs) => rs.all isObjB
      | _ => false := rfl

theorem resultsWellFormed_obj (fields : List (String × Json)) :
    resultsWellFormed (some (Json.obj fields)) =
      match pyLookup fields "Results" with
      | some (Json.arr _) => true
      | some _ => false
      | none => true := rfl

/-- C5 counterexample: a response whose body parses and carries a
`Results` key can still make the fetch operation propagate an error in
normalized mode: with `Results` equal to `["x"]`, normalization raises
on the non-object element, so the error does not happen if and only if
the body is unparseable or lacks `Results`. -/
theorem c5_counterexample :
    bodyHasResults (some (Json.obj [("Results", Json.arr [Json.str "x"])])) = true ∧
    isOkE (( _get "server" "assets" none none none none none
        (HttpResponse.mk 200 (some (Json.obj [("Results", Json.arr [Json.str "x"])])))
        false).2.2) = false :=
  ⟨rfl, rfl⟩

/-- C5 (amended): the fetch operation never raises because of the HTTP
status itself: its returned value is independent of the status code, and
on a failing status it logs the failure line with the status code.  For
every response whose `Results` value, when present, is an array, an
error propagates if and only if the body cannot be parsed as JSON, the
parsed body lacks the `Results` key, or, in normalized (non-raw) mode,
some element of the `Results` array is not an object. -/
theorem c5_amended (server module : String)
    (f operator identifier : Option String) (top skip : Option Int)
    (s s2 : Nat) (body : Option Json) (raw : Bool)
    (hb : resultsWellFormed body = true) :
    ( _get server module f operator identifier top skip
        (HttpResponse.mk s body) raw).2.2 =
      ( _get server module f operator identifier top skip
        (HttpResponse.mk s2 body) raw).2.2 ∧
    isOkE (( _get server module f operator identifier top skip
        (HttpResponse.mk s body) raw).2.2) =
      (bodyHasResults body && (raw || resultsAllObjects body)) ∧
    (respOk s = false →
      ( _get server module f operator identifier top skip
          (HttpResponse.mk s body) raw).2.1 =
        "Connection NOT Successful\nStatus Code: " ++ toString s ++ "\n") := by
  refine ⟨rfl, ?_, ?_⟩
  · show isOkE (fetchResult body raw) =
      (bodyHasResults body && (raw || resultsAllObjects body))
    cases body with
    | none => rfl
    | some j =>
      cases j with
      | null => rfl
      | bool b => rfl
      | num n => rfl
      | str str0 => rfl
      | arr xs => rfl
      | obj fields =>
        rw [fetchResult_obj, bodyHasResults_obj, resultsAllObjects_obj]
        rw [resultsWellFormed_obj] at hb
        cases hres : pyLookup fields "Results" with
        | none => rfl
        | some results =>
          rw [hres] at hb
          cases raw with
          | true => rfl
          | false =>
            cases results with
            | arr rs =>
              show isOkE
                  (match normalizeAll rs with
                   | Except.ok vs => Except.ok (Json.arr vs)
                   | Except.error e => Except.error e) =
                (true && (false || rs.all isObjB))
              rw [← normalizeAll_isOk rs]
              cases hn : normalizeAll rs with
              | ok vs => rfl
              | error e => rfl
            | null => exact Bool.noConfusion hb
            | bool b => exact Bool.noConfusion hb
            | num n => exact Bool.noConfusion hb
            | str str0 => exact Bool.noConfusion hb
            | obj inner => exact Bool.noConfusion hb
  · intro h
    show fetchLog s =
      "Connection NOT Successful\nStatus Code: " ++ toString s ++ "\n"
    unfold fetchLog
    rw [h]
    rfl

/-- C5 witness: instantiation at a 404 response carrying an empty
`Results` array. -/
theorem c5_amended_witness :
    resultsWellFormed (some (Json.obj [("Results", Json.arr [])])) = true ∧
    isOkE (( _get "server" "assets" none none none none none
        (HttpResponse.mk 404 (some (Json.obj [("Results", Json.arr [])])))
        false).2.2) =
      (bodyHasResults (some (Json.obj [("Results", Json.arr [])])) &&
        (false || resultsAllObjects (some (Json.obj [("Results", Json.arr [])])))) :=
  ⟨rfl,
   (c5_amended "server" "assets" none none none none none 404 200
      (some (Json.obj [("Results", Json.arr [])])) false rfl).2.1⟩

/-- C6: for every GET response whose JSON body contains a `Results`
entry, raw mode returns that value unmodified, with no normalization
applied. -/
theorem c6_raw_passthrough (server module : String)
    (f operator identifier : Option String) (top skip : Option Int) (s : Nat)
    (fields : List (String × Json)) (rs : Json)
    (h : pyLookup fields "Results" = some rs) :
    ( _get server module f operator identifier top skip
        (HttpResponse.mk s (some (Json.obj fields))) true).2.2 = Except.ok rs := by
  show fetchResult (some (Json.obj fields)) true = Except.ok rs
  rw [fetchResult_obj, h]
  rfl

/-- C6 witness: instantiation at a `Results` array holding one string;
raw mode passes it through although normalization would raise on it. -/
theorem c6_raw_passthrough_witness :
    pyLookup [("Results", Json.arr [Json.str "x"])] "Results" =
      some (Json.arr [Json.str "x"]) ∧
    ( _get "server" "assets" none none none none none
        (HttpResponse.mk 200 (some (Json.obj [("Results", Json.arr [Json.str "x"])])))
        true).2.2 = Except.ok (Json.arr [Json.str "x"]) :=
  ⟨rfl,
   c6_raw_passthrough "server" "assets" none none none none none 200
     [("Results", Json.arr [Json.str "x"])] (Json.arr [Json.str "x"]) rfl⟩

/-- C7: for every module name and record collection, the create
operation issues a POST of the collection as the JSON body to
`http://<server>/v8/<module>` and returns the parsed response body
verbatim, with no inspection or reshaping of either. -/
theorem c7_post_passthrough (server module : String) (data : Json)
    (s : Nat) (j : Json) :
    ( _post server module data (HttpResponse.mk s (some j))).1 =
      SentRequest.mk Method.post ("http://" ++ server ++ "/v8/" ++ module)
        (some data) ∧
    ( _post server module data (HttpResponse.mk s (some j))).2.2 = Except.ok j :=
  ⟨rfl, rfl⟩

/-- C8 counterexample: the update and create operations do not produce
the same logging: at status 200 for module `assets`, the create success
line says the asset has been added and the update success line says it
has been updated. -/
theorem c8_counterexample :
    ( _put "server" "assets" (Json.arr []) (HttpResponse.mk 200 (some Json.null))).2.1 ≠
    ( _post "server" "assets" (Json.arr []) (HttpResponse.mk 200 (some Json.null))).2.1 := by
  decide

/-- C8 (amended): the update operation is identical to the create
operation except that it issues a PUT instead of a POST and that its
success log line ends in `updated` where the create line ends in
`added`: for every module name, record collection and response, both
build the same URL and body, return the same parsed response body, and
print the identical failure line on a failing status. -/
theorem c8_amended (server module : String) (data : Json) (s : Nat)
    (body : Option Json) :
    ( _put server module data (HttpResponse.mk s body)).1.url =
      ( _post server module data (HttpResponse.mk s body)).1.url ∧
    ( _put server module data (HttpResponse.mk s body)).1.body =
      ( _post server module data (HttpResponse.mk s body)).1.body ∧
    ( _put server module data (HttpResponse.mk s body)).1.method = Method.put ∧
    ( _post server module data (HttpResponse.mk s body)).1.method = Method.post ∧
    ( _put server module data (HttpResponse.mk s body)).2.2 =
      ( _post server module data (HttpResponse.mk s body)).2.2 ∧
    (respOk s = false →
      ( _put server module data (HttpResponse.mk s body)).2.1 =
        ( _post server module data (HttpResponse.mk s body)).2.1) ∧
    (respOk s = true →
      ( _put server module data (HttpResponse.mk s body)).2.1 =
        "Connection Successful!\nStatus Code: " ++ toString s ++
          "\nThe " ++ pyDropLast module ++ " has been updated\n" ∧
      ( _post server module data (HttpResponse.mk s body)).2.1 =
        "Connection Successful!\nStatus Code: " ++ toString s ++
          "\nThe " ++ pyDropLast module ++ " has been added\n") := by
  refine ⟨rfl, rfl, rfl, rfl, rfl, ?_, ?_⟩
  · intro h
    show (if respOk s then
        "Connection Successful!\nStatus Code: " ++ toString s ++
          "\nThe " ++ pyDropLast module ++ " has been updated\n"
      else
        "Connection NOT Successful\nStatus Code: " ++ toString s ++ "\n") =
      (if respOk s then
        "Connection Successful!\nStatus Code: " ++ toString s ++
          "\nThe " ++ pyDropLast module ++ " has been added\n"
      else
        "Connection NOT Successful\nStatus Code: " ++ toString s ++ "\n")
    rw [h]
    rfl
  · intro h
    constructor
    · show (if respOk s then
          "Connection Successful!\nStatus Code: " ++ toString s ++
            "\nThe " ++ pyDropLast module ++ " has been updated\n"
        else
          "Connection NOT Successful\nStatus Code: " ++ toString s ++ "\n") = _
      rw [h]
      rfl
    · show (if respOk s then
          "Connection Successful!\nStatus Code: " ++ toString s ++
            "\nThe " ++ pyDropLast module ++ " has been added\n"
        else
          "Connection NOT Successful\nStatus Code: " ++ toString s ++ "\n") = _
      rw [h]
      rfl

/-- C8 witness: instantiation at a failing status (500) and at a
successful status (200). -/
theorem c8_amended_witness :
    respOk 500 = false ∧
    ( _put "server" "assets" (Json.arr []) (HttpResponse.mk 500 (some Json.null))).2.1 =
      ( _post "server" "assets" (Json.arr []) (HttpResponse.mk 500 (some Json.null))).2.1 :=
  ⟨rfl,
   (c8_amended "server" "assets" (Json.arr []) 500 (some Json.null)).2.2.2.2.2.1 rfl⟩

/-- C9: omitted optional arguments are never dropped from the query
string: with top and skip omitted both parameters are rendered as the
literal text `None`, and with a (non-empty) filter supplied but
operator and identifier omitted, the literal text `None` appears in
the `$filter` expression. -/
theorem c9_none_rendered (f : String) (operator identifier : Option String)
    (hf : f ≠ "") :
    buildQuery none operator identifier none none = "?$top=None&$skip=None" ∧
    buildQuery (some f) none none none none =
      "?$filter=" ++ f ++ "%20" ++ "None" ++ "%20\"" ++ "None" ++
        "\"&$top=" ++ "None" ++ "&$skip=" ++ "None" := by
  constructor
  · rfl
  · have ht : pyTruthy (some f) = true := by
      simp only [pyTruthy, bne_iff_ne, ne_eq]
      exact hf
    unfold buildQuery
    rw [ht]
    rfl

/-- C9 witness: instantiation at the filter `ID` with every other
optional argument omitted. -/
theorem c9_none_rendered_witness :
    ("ID" : String) ≠ "" ∧
    (buildQuery none none none none none = "?$top=None&$skip=None" ∧
     buildQuery (some "ID") none none none none =
       "?$filter=" ++ "ID" ++ "%20" ++ "None" ++ "%20\"" ++ "None" ++
         "\"&$top=" ++ "None" ++ "&$skip=" ++ "None") :=
  ⟨by decide, c9_none_rendered "ID" none none (by decide)⟩

/-- C10: the filter is tested for truthiness, not presence: a supplied
but empty filter takes the no-filter branch, so the query string is
`?$top=<top>&$skip=<skip>` and any supplied operator and identifier are
ignored. -/
theorem c10_empty_filter_falsy (operator identifier : Option String)
    (top skip : Option Int) :
    buildQuery (some "") operator identifier top skip =
      "?$top=" ++ pyStrInt top ++ "&$skip=" ++ pyStrInt skip :=
  rfl
